import Mathlib

/-!
Verification of the character-browser repository: a shallow embedding of the
router search validation, the list-view navigation handlers, the debounced
text-commit state machine, the API client, and the detail/pagination
rendering, together with theorems settling the specification claims.

JavaScript conventions used throughout the embedding:
- a JS value that may be `undefined` is an `Option`;
- JS truthiness on strings (falsy iff empty) and on numbers (falsy iff 0)
  is made explicit at each use site;
- machine numbers that the code only compares and passes through are `Int`
  (URL page values) or `Nat` (HTTP status, counts).
-/

/-! ## Data model (src/types/api, as used by the components) -/

/-- One record returned by the external API (a character). -/
structure Character where
  id : Int
  name : String
  status : String
  species : String
  gender : String
  locationName : String
  episode : List String
deriving DecidableEq

/-- Pagination metadata `info` of a list response: count, pages, and the
previous / next page URLs (`null` encoded as `none`). -/
structure PageInfo where
  count : Nat
  pages : Nat
  next : Option String
  prev : Option String
deriving DecidableEq

/-- A fetched page: `{info, results}`. -/
structure CharactersResponse where
  info : PageInfo
  results : List Character
deriving DecidableEq

/-! ## Router search validation (src/router.tsx, validateSearch) -/

/-- The canonical State Model produced by `validateSearch`: all seven fields
are present (non-optional) in the result type, mirroring the object literal
the source returns. -/
structure SearchParams where
  page : Int
  name : String
  status : String
  species : String
  gender : String
  sortBy : String
  sortOrder : String
deriving DecidableEq

/-- The raw `page` URL parameter as seen by `Number(search.page)`:
absent, present but not numeric, or carrying an (integer) numeric value. -/
inductive PageParam where
  | absent
  | nonNumeric
  | num (n : Int)
deriving DecidableEq

/-- A raw URL query record: any subset of the seven parameters present. -/
structure RawSearch where
  page : PageParam
  name : Option String
  status : Option String
  species : Option String
  gender : Option String
  sortBy : Option String
  sortOrder : Option String
deriving DecidableEq

/-- JS `x || d` for an optional string `x`: the default is taken when the
value is absent (`undefined`) or the empty string (falsy). -/
def jsOr (v : Option String) (d : String) : String :=
  match v with
  | none => d
  | some s => if s = "" then d else s

/-- JS `Number(search.page) || 1`: `NaN` (absent or non-numeric parameter)
and `0` are falsy and give 1; any other numeric value passes through. -/
def numberOr1 : PageParam → Int
  | .absent => 1
  | .nonNumeric => 1
  | .num n => if n = 0 then 1 else n

/-- `validateSearch` of the index route (src/router.tsx lines 26-36). -/
def validateSearch (r : RawSearch) : SearchParams :=
  ⟨numberOr1 r.page,
   jsOr r.name "",
   jsOr r.status "",
   jsOr r.species "",
   jsOr r.gender "",
   jsOr r.sortBy "",
   jsOr r.sortOrder "asc"⟩

/-- Modelled from the spec: a single field of the URL encoder. The encoder
itself (the router library's search stringification) is not part of the
repository; per the spec, "a field holding the empty string is encoded as
an absent URL parameter" and any other value is kept. -/
def encodeField (v : String) : Option String :=
  if v = "" then none else some v

/-- Modelled from the spec: the URL encoder for a whole State Model value.
The page is a number and is always carried; every string field is carried
exactly when it is non-empty. -/
def encodeSearch (s : SearchParams) : RawSearch :=
  ⟨.num s.page,
   encodeField s.name,
   encodeField s.status,
   encodeField s.species,
   encodeField s.gender,
   encodeField s.sortBy,
   encodeField s.sortOrder⟩

/-! ## List-view navigation handlers (src/components/CharacterList.tsx) -/

/-- A partial filter update (`Partial<CharacterFilters>`): a field is `none`
when the corresponding key is absent from the JS object. -/
structure Updates where
  page : Option Int
  name : Option String
  status : Option String
  species : Option String
  gender : Option String
  sortBy : Option String
  sortOrder : Option String
deriving DecidableEq

/-- The empty update object `{}`. -/
def noUpdates : Updates := ⟨none, none, none, none, none, none, none⟩

/-- `Object.keys(updates).length > 0` under the convention that a field is
present exactly when it is `some`. -/
def hasUpdates (u : Updates) : Bool :=
  u.page.isSome || u.name.isSome || u.status.isSome || u.species.isSome
    || u.gender.isSome || u.sortBy.isSome || u.sortOrder.isSome

/-- `buildSearchParams` (CharacterList.tsx lines 154-164): each field is the
update when given, the current value otherwise; the page falls back to 1
when some other field is updated and the page is not. -/
def buildSearchParams (cur : SearchParams) (u : Updates) : SearchParams :=
  ⟨(match u.page with
    | some p => p
    | none => if hasUpdates u then 1 else cur.page),
   u.name.getD cur.name,
   u.status.getD cur.status,
   u.species.getD cur.species,
   u.gender.getD cur.gender,
   u.sortBy.getD cur.sortBy,
   u.sortOrder.getD cur.sortOrder⟩

/-- `handleSearch` (lines 166-169): `buildSearchParams({...newFilters, page: 1})`
followed by `navigate`; the value returned here is the search object the
navigation carries. -/
def handleSearch (cur : SearchParams) (nf : Updates) : SearchParams :=
  buildSearchParams cur
    ⟨some 1, nf.name, nf.status, nf.species, nf.gender, nf.sortBy, nf.sortOrder⟩

/-- `handlePageChange` (lines 171-174): `buildSearchParams({page: newPage})`. -/
def handlePageChange (cur : SearchParams) (newPage : Int) : SearchParams :=
  buildSearchParams cur ⟨some newPage, none, none, none, none, none, none⟩

/-- The search object pushed by `clearFilters` (lines 180-195). -/
def clearFiltersSearch : SearchParams := ⟨1, "", "", "", "", "", "asc"⟩

/-! ## The filter set sent to the API client (filters useMemo, lines 121-127) -/

/-- `CharacterFilters` as passed to `api.getCharacters`: every field may be
`undefined`. -/
structure CharacterFilters where
  page : Option Int
  name : Option String
  status : Option String
  species : Option String
  gender : Option String
deriving DecidableEq

/-- JS `x || undefined` on a string. -/
def orUndefined (v : String) : Option String :=
  if v = "" then none else some v

/-- The `filters` useMemo: page is passed as is, each string filter becomes
`undefined` when empty; sortBy and sortOrder are not read. -/
def filtersOf (s : SearchParams) : CharacterFilters :=
  ⟨some s.page, orUndefined s.name, orUndefined s.status,
   orUndefined s.species, orUndefined s.gender⟩

/-- The react-query key `['characters', filters]`. -/
def queryKeyOf (s : SearchParams) : String × CharacterFilters :=
  ("characters", filtersOf s)

/-! ## API client (src/services/api.ts, filtered version) -/

/-- One `URLSearchParams.append` guarded by JS truthiness of an optional
string: appended exactly when present and non-empty. -/
def entryOfStr (key : String) (v : Option String) : List (String × String) :=
  match v with
  | none => []
  | some s => if s = "" then [] else [(key, s)]

/-- One `URLSearchParams.append` guarded by JS truthiness of an optional
number: appended exactly when present and non-zero. -/
def entryOfInt (key : String) (v : Option Int) : List (String × String) :=
  match v with
  | none => []
  | some p => if p = 0 then [] else [(key, toString p)]

/-- The outgoing query string built by `getCharacters` (api.ts lines 37-59),
as the ordered list of appended key/value pairs. -/
def characterQuery (f : CharacterFilters) : List (String × String) :=
  entryOfInt "page" f.page
    ++ entryOfStr "name" f.name
    ++ entryOfStr "status" f.status
    ++ entryOfStr "species" f.species
    ++ entryOfStr "gender" f.gender

/-- The outcome of the single `fetch` a client call performs: either the
transport rejected, or a response with an HTTP status and a parsed body
arrived. -/
inductive FetchOutcome (α : Type) where
  | reject (msg : String)
  | response (status : Nat) (body : α)
deriving DecidableEq

/-- `response.ok`: status in the inclusive range 200-299. -/
def responseOk (status : Nat) : Bool :=
  decide (200 ≤ status) && decide (status ≤ 299)

/-- An error escaping the API client: a transport failure, or an HTTP
failure carrying the status code (the thrown message interpolates the
status). -/
inductive ApiError where
  | network (msg : String)
  | http (status : Nat)
deriving DecidableEq

/-- `api.getCharacters` (filtered version, lines 36-68): a rejected fetch
propagates; a non-ok response throws an error carrying the status; an ok
response returns the parsed body. The fetch outcome is an explicit input
since the transport is external. -/
def getCharacters (_f : CharacterFilters)
    (fetched : FetchOutcome CharactersResponse) :
    Except ApiError CharactersResponse :=
  match fetched with
  | .reject m => .error (.network m)
  | .response st b =>
      if responseOk st then .ok b else .error (.http st)

/-- `api.getCharacter` (lines 70-77): same response handling for the
single-record endpoint. -/
def getCharacter (_id : Int) (fetched : FetchOutcome Character) :
    Except ApiError Character :=
  match fetched with
  | .reject m => .error (.network m)
  | .response st b =>
      if responseOk st then .ok b else .error (.http st)

/-! ## Detail view rendering (CharacterDetail, in src/test/setup.ts) -/

/-- The four render branches of `CharacterDetail`. -/
inductive DetailView where
  | loading
  | errorView
  | notFound
  | success (c : Character)
deriving DecidableEq

/-- The query state the component reads: `isLoading`, `isError`, `data`. -/
structure DetailQuery where
  isLoading : Bool
  isError : Bool
  character : Option Character
deriving DecidableEq

/-- The branch cascade of `CharacterDetail` (setup.ts lines 484-521):
loading, then error, then `!character` (not found), then success. -/
def renderDetail (q : DetailQuery) : DetailView :=
  if q.isLoading then .loading
  else if q.isError then .errorView
  else
    match q.character with
    | none => .notFound
    | some c => .success c

/-- The settled query state react-query derives from the resolved or
rejected `getCharacter` promise: success carries the data, a thrown error
sets `isError` with no data. -/
def settledQuery (r : Except ApiError Character) : DetailQuery :=
  match r with
  | .ok c => ⟨false, false, some c⟩
  | .error _ => ⟨false, true, none⟩

/-! ## Pagination controls (CharacterList.tsx lines 415-440) -/

/-- JS truthiness of an optional string (the `info.prev` / `info.next`
URLs): truthy iff present and non-empty. -/
def jsTruthyStr : Option String → Bool
  | none => false
  | some s => decide (s ≠ "")

/-- `disabled={!data?.info.prev}` on the Previous button. -/
def prevDisabled (info : PageInfo) : Bool := !jsTruthyStr info.prev

/-- `disabled={!data?.info.next}` on the Next button. -/
def nextDisabled (info : PageInfo) : Bool := !jsTruthyStr info.next

/-! ## Sample values used by concrete witnesses and counterexamples -/

/-- The all-default State Model. -/
def defaultParams : SearchParams := ⟨1, "", "", "", "", "", "asc"⟩

/-- A URL query with every parameter absent. -/
def emptyRaw : RawSearch := ⟨.absent, none, none, none, none, none, none⟩

/-- A URL query whose page parameter carries the numeric value -3. -/
def rawNegPage : RawSearch := ⟨.num (-3), none, none, none, none, none, none⟩

/-- A filter object with every field absent (`getCharacters({})`). -/
def noFilters : CharacterFilters := ⟨none, none, none, none, none⟩

/-- A concrete record for witnesses. -/
def sampleCharacter : Character :=
  ⟨1, "Rick Sanchez", "Alive", "Human", "Male", "Citadel of Ricks",
   ["https://rickandmortyapi.com/api/episode/1"]⟩

/-- Page metadata whose `prev` URL is present. -/
def prevInfo : PageInfo := ⟨826, 42, some "url-next", some "url-prev"⟩

/-! ## Theorems -/

/-- C1: a commit through `handleSearch` produces navigation parameters
whose page is 1 with the changed fields merged into the otherwise-unchanged
current filter set, and `handlePageChange` produces parameters whose page
is the new page number and whose other six fields equal the current
values. -/
theorem handleSearch_resets_page_handlePageChange_preserves
    (cur : SearchParams) (u : Updates) (newPage : Int) :
    (handleSearch cur u).page = 1
      ∧ (handleSearch cur u).name = u.name.getD cur.name
      ∧ (handleSearch cur u).status = u.status.getD cur.status
      ∧ (handleSearch cur u).species = u.species.getD cur.species
      ∧ (handleSearch cur u).gender = u.gender.getD cur.gender
      ∧ (handleSearch cur u).sortBy = u.sortBy.getD cur.sortBy
      ∧ (handleSearch cur u).sortOrder = u.sortOrder.getD cur.sortOrder
      ∧ handlePageChange cur newPage =
          ⟨newPage, cur.name, cur.status, cur.species, cur.gender,
           cur.sortBy, cur.sortOrder⟩ :=
  ⟨rfl, rfl, rfl, rfl, rfl, rfl, rfl, rfl⟩

/-- C2 counterexample: the URL query `?page=-3` decodes to page -3, which
is not a positive integer, refuting "the decoded page is always a positive
integer". -/
theorem validateSearch_negative_page :
    (validateSearch rawNegPage).page = -3
      ∧ ¬(0 < (validateSearch rawNegPage).page) := by
  decide

/-- C2 amended: the decode returns all seven fields, with page 1 when the
page parameter is absent, non-numeric, or zero, the empty string for every
other absent field, sortOrder "asc" when absent; the decoded page is
nonzero (a nonzero numeric parameter, including a negative one, passes
through unchanged). -/
theorem validateSearch_defaults (r : RawSearch) :
    (validateSearch r).page ≠ 0
      ∧ ((r.page = .absent ∨ r.page = .nonNumeric) →
          (validateSearch r).page = 1)
      ∧ (∀ n : Int, r.page = .num n →
          (validateSearch r).page = if n = 0 then 1 else n)
      ∧ (r.name = none → (validateSearch r).name = "")
      ∧ (r.status = none → (validateSearch r).status = "")
      ∧ (r.species = none → (validateSearch r).species = "")
      ∧ (r.gender = none → (validateSearch r).gender = "")
      ∧ (r.sortBy = none → (validateSearch r).sortBy = "")
      ∧ (r.sortOrder = none → (validateSearch r).sortOrder = "asc") := by
  refine ⟨?_, ?_, ?_, ?_, ?_, ?_, ?_, ?_, ?_⟩
  · cases hp : r.page with
    | absent => simp [validateSearch, numberOr1, hp]
    | nonNumeric => simp [validateSearch, numberOr1, hp]
    | num m =>
        by_cases h : m = 0 <;> simp [validateSearch, numberOr1, hp, h]
  · rintro (h | h) <;> simp [validateSearch, numberOr1, h]
  · intro m h; simp [validateSearch, numberOr1, h]
  all_goals (intro h; simp [validateSearch, jsOr, h])

/-- C2 witness: the amended theorem applied to the empty URL query. -/
theorem validateSearch_defaults_witness :
    (validateSearch emptyRaw).page = 1
      ∧ (validateSearch emptyRaw).name = ""
      ∧ (validateSearch emptyRaw).sortOrder = "asc" :=
  ⟨(validateSearch_defaults emptyRaw).2.1 (Or.inl rfl),
   (validateSearch_defaults emptyRaw).2.2.2.1 rfl,
   (validateSearch_defaults emptyRaw).2.2.2.2.2.2.2.2 rfl⟩

/-- Re-decoding an encoded non-empty field gives the field back. -/
theorem jsOr_encodeField (x : String) : jsOr (encodeField x) "" = x := by
  by_cases h : x = "" <;> simp [jsOr, encodeField, h]

/-- Re-decoding an encoded field with any default gives the field back when
the field is non-empty. -/
theorem jsOr_encodeField_of_ne (x d : String) (h : x ≠ "") :
    jsOr (encodeField x) d = x := by
  simp [jsOr, encodeField, h]

/-- C3: the State Model round-trips through URL encode and decode without
loss; empty-string fields travel as absent parameters and come back as the
empty string. The hypotheses are the State Model typing of the spec's data
model: the page is a positive integer and sortOrder is asc or desc. -/
theorem decode_encode_roundtrip (s : SearchParams)
    (hpage : 0 < s.page)
    (hsort : s.sortOrder = "asc" ∨ s.sortOrder = "desc") :
    validateSearch (encodeSearch s) = s := by
  have hso : s.sortOrder ≠ "" := by
    rcases hsort with h | h <;> simp [h]
  have hp : s.page ≠ 0 := by omega
  obtain ⟨p, n, st, sp, g, sb, so⟩ := s
  simp only [validateSearch, encodeSearch] at *
  congr 1
  · simp [numberOr1, hp]
  · exact jsOr_encodeField n
  · exact jsOr_encodeField st
  · exact jsOr_encodeField sp
  · exact jsOr_encodeField g
  · exact jsOr_encodeField sb
  · exact jsOr_encodeField_of_ne so "asc" hso

/-- C3 witness: the round-trip theorem applied to a concrete State Model
with both empty and non-empty fields. -/
theorem decode_encode_roundtrip_witness :
    validateSearch (encodeSearch ⟨2, "Rick", "alive", "", "female", "name", "desc"⟩)
      = ⟨2, "Rick", "alive", "", "female", "name", "desc"⟩ :=
  decode_encode_roundtrip ⟨2, "Rick", "alive", "", "female", "name", "desc"⟩
    (by decide) (Or.inr rfl)

/-- Membership in a truthiness-guarded string entry. -/
theorem mem_entryOfStr (key : String) (v : Option String) (kv : String × String) :
    kv ∈ entryOfStr key v ↔ ∃ s, v = some s ∧ s ≠ "" ∧ kv = (key, s) := by
  cases v with
  | none => simp [entryOfStr]
  | some s => by_cases h : s = "" <;> simp [entryOfStr, h]

/-- Membership in a truthiness-guarded numeric entry. -/
theorem mem_entryOfInt (key : String) (v : Option Int) (kv : String × String) :
    kv ∈ entryOfInt key v ↔ ∃ p, v = some p ∧ p ≠ 0 ∧ kv = (key, toString p) := by
  cases v with
  | none => simp [entryOfInt]
  | some p => by_cases h : p = 0 <;> simp [entryOfInt, h]

/-- C5 counterexample: `getCharacters({})` issues an empty query string; in
particular no `page=1` parameter is supplied by the client when the page is
unspecified, refuting "page carries default 1 when unspecified". -/
theorem characterQuery_empty :
    characterQuery noFilters = []
      ∧ ("page", "1") ∉ characterQuery noFilters := by
  decide

/-- C5 amended: a field that is absent, undefined or empty (for page:
absent or zero) is omitted from the outgoing query rather than sent as an
empty value — an unspecified page is omitted, not defaulted to 1 by the
client; the component's filter set for the all-default State Model is
`{page: 1, name/status/species/gender: undefined}`, whose query is exactly
`page=1`. -/
theorem characterQuery_omits_empty (f : CharacterFilters) :
    ((f.page = none ∨ f.page = some 0) →
        ∀ v, ("page", v) ∉ characterQuery f)
      ∧ ((f.name = none ∨ f.name = some "") →
        ∀ v, ("name", v) ∉ characterQuery f)
      ∧ ((f.status = none ∨ f.status = some "") →
        ∀ v, ("status", v) ∉ characterQuery f)
      ∧ ((f.species = none ∨ f.species = some "") →
        ∀ v, ("species", v) ∉ characterQuery f)
      ∧ ((f.gender = none ∨ f.gender = some "") →
        ∀ v, ("gender", v) ∉ characterQuery f)
      ∧ filtersOf (validateSearch emptyRaw) = ⟨some 1, none, none, none, none⟩
      ∧ characterQuery (filtersOf (validateSearch emptyRaw)) = [("page", "1")] := by
  refine ⟨?_, ?_, ?_, ?_, ?_, by decide, by decide⟩ <;>
    · intro h v hmem
      simp only [characterQuery, List.mem_append, mem_entryOfStr,
        mem_entryOfInt] at hmem
      rcases h with h | h <;>
        rcases hmem with ⟨x, hx, hne, hkv⟩ | ⟨x, hx, hne, hkv⟩ |
          ⟨x, hx, hne, hkv⟩ | ⟨x, hx, hne, hkv⟩ | ⟨x, hx, hne, hkv⟩ <;>
        simp_all

/-- C5 witness: the amended theorem applied to a filter set whose name is
the empty string. -/
theorem characterQuery_omits_empty_witness :
    ("name", "x") ∉ characterQuery ⟨some 2, some "", none, none, none⟩ :=
  (characterQuery_omits_empty ⟨some 2, some "", none, none, none⟩).2.1
    (Or.inr rfl) "x"

/-- C6: both client calls return the parsed body on an ok (2xx) response,
throw an error carrying the HTTP status exactly when the response is not
ok, and propagate a transport rejection as an error; each call consumes a
single fetch outcome (no retry). -/
theorem api_error_exactly_on_failure (i : Int) (m : String) (st : Nat)
    (b : Character) (f : CharacterFilters) (m2 : String) (st2 : Nat)
    (b2 : CharactersResponse) :
    getCharacter i (.reject m) = .error (.network m)
      ∧ getCharacter i (.response st b) =
          (if responseOk st then .ok b else .error (.http st))
      ∧ (getCharacter i (.response st b) = .error (.http st) ↔
          responseOk st = false)
      ∧ getCharacters f (.reject m2) = .error (.network m2)
      ∧ getCharacters f (.response st2 b2) =
          (if responseOk st2 then .ok b2 else .error (.http st2))
      ∧ (getCharacters f (.response st2 b2) = .error (.http st2) ↔
          responseOk st2 = false) := by
  refine ⟨rfl, rfl, ?_, rfl, rfl, ?_⟩
  · by_cases h : responseOk st <;> simp [getCharacter, h]
  · by_cases h : responseOk st2 <;> simp [getCharacters, h]

/-- C7: the filter set sent to the API client and the react-query key are
unchanged when only sortBy and/or sortOrder change, so a client-side sort
change never alters the request parameters and never triggers a
re-query. -/
theorem sort_change_preserves_filters (s : SearchParams) (sb so : String) :
    filtersOf ⟨s.page, s.name, s.status, s.species, s.gender, sb, so⟩
        = filtersOf s
      ∧ queryKeyOf ⟨s.page, s.name, s.status, s.species, s.gender, sb, so⟩
        = queryKeyOf s :=
  ⟨rfl, rfl⟩

/-- C8: with loading over, a missing record without an error renders the
not-found presentation, the error presentation is rendered exactly when the
query errored, the two presentations are distinct, and a 404 response makes
`getCharacter` throw so the detail view shows the error presentation. -/
theorem detail_not_found_distinct_from_error (q : DetailQuery) (i : Int)
    (b : Character) :
    (q.isLoading = false → q.isError = false → q.character = none →
        renderDetail q = .notFound)
      ∧ (q.isLoading = false → (renderDetail q = .errorView ↔ q.isError = true))
      ∧ DetailView.notFound ≠ DetailView.errorView
      ∧ renderDetail (settledQuery (getCharacter i (.response 404 b)))
          = .errorView := by
  obtain ⟨l, e, c⟩ := q
  refine ⟨?_, ?_, by decide, rfl⟩
  · intro hl he hc
    simp only at hl he hc
    subst hl; subst he; subst hc
    rfl
  · intro hl
    simp only at hl
    subst hl
    cases e <;> cases c <;> simp [renderDetail]

/-- C8 witness: the theorem applied to a settled query with no data and no
error. -/
theorem detail_not_found_witness :
    renderDetail ⟨false, false, none⟩ = DetailView.notFound :=
  (detail_not_found_distinct_from_error ⟨false, false, none⟩ 1
    sampleCharacter).1 rfl rfl rfl

/-- C9 counterexample: on a Page whose metadata carries a previous-page URL
the Previous control is enabled even when the current page is 1, refuting
"disabled exactly when the current page is 1 or info.prev is absent". -/
theorem prevDisabled_ignores_page :
    ¬(prevDisabled prevInfo = true ↔ ((1 : Int) = 1 ∨ prevInfo.prev = none)) := by
  decide

/-- C9 amended: the Previous control is disabled exactly when `info.prev`
is absent or empty (JS falsy) and the Next control exactly when `info.next`
is absent or empty, determined from the Page metadata alone — the current
page number and the result count are not consulted. -/
theorem pagination_disabled_iff (info : PageInfo) :
    (prevDisabled info = true ↔ (info.prev = none ∨ info.prev = some ""))
      ∧ (nextDisabled info = true ↔ (info.next = none ∨ info.next = some "")) := by
  constructor
  · cases h : info.prev with
    | none => simp [prevDisabled, jsTruthyStr, h]
    | some s => by_cases hs : s = "" <;> simp [prevDisabled, jsTruthyStr, h, hs]
  · cases h : info.next with
    | none => simp [nextDisabled, jsTruthyStr, h]
    | some s => by_cases hs : s = "" <;> simp [nextDisabled, jsTruthyStr, h, hs]

/-- C10: every navigation issued by the list view carries a search object
in which all seven fields are explicitly present — the handlers produce the
full record characterized here, never a partial object. -/
theorem navigations_carry_full_search (cur : SearchParams) (u : Updates)
    (newPage : Int) :
    handleSearch cur u =
        ⟨1, u.name.getD cur.name, u.status.getD cur.status,
         u.species.getD cur.species, u.gender.getD cur.gender,
         u.sortBy.getD cur.sortBy, u.sortOrder.getD cur.sortOrder⟩
      ∧ handlePageChange cur newPage =
        ⟨newPage, cur.name, cur.status, cur.species, cur.gender,
         cur.sortBy, cur.sortOrder⟩
      ∧ clearFiltersSearch = ⟨1, "", "", "", "", "", "asc"⟩ :=
  ⟨rfl, rfl, rfl⟩

/-! ## Debounced name commit (CharacterList.tsx lines 85-119, 240-244)

A discrete-event model of the React runtime around the name input:
- `params` is the committed State Model (the URL);
- `searchInput` is the local echo state;
- `pending` is the timeout scheduled by the debounce useEffect, whose
  callback closes over the `searchInput` it saw and over that render's
  search params (both the `name` it compares against and the environment
  `handleSearch` merges into);
- a keystroke that changes the input re-renders, runs the effect cleanup
  (clearTimeout) and schedules a fresh 500ms timeout; a keystroke with an
  unchanged value is a React state-update bailout and does nothing;
- Enter calls `handleSearch` at once; the navigation re-renders, the
  `[name]` sync effect sets `searchInput` to the committed name (already
  equal, so no change) and the debounce effect's dependency is unchanged,
  so the pending timeout survives untouched;
- when a pending timeout fires, its stale closure compares the captured
  input against the captured name and, when different, navigates through
  `handleSearch` over the captured params; the resulting render syncs
  `searchInput` and re-schedules only if that sync changed the input.

Navigation is modelled as directly replacing `params` with the pushed
search object (decode after encode is lossless for the objects the
handlers push, cf. the round-trip theorem). Emitted navigations are
recorded as (time, search object) pairs.
-/

/-- A scheduled debounce timeout and what its callback closed over. -/
structure Timer where
  fireAt : Nat
  input : String
  snap : SearchParams
deriving DecidableEq

/-- The component state relevant to the debounced name commit. -/
structure ListState where
  params : SearchParams
  searchInput : String
  pending : Option Timer
deriving DecidableEq

/-- User events: a keystroke carrying the input's new value, or Enter. -/
inductive Ev where
  | key (t : Nat) (v : String)
  | enter (t : Nat)
deriving DecidableEq

/-- The update object `{name: v}` passed to `handleSearch`. -/
def nameUpdate (v : String) : Updates :=
  ⟨none, some v, none, none, none, none, none⟩

/-- The debounce timeout callback: compare the captured input with the
captured name; when different, navigate through the captured
`handleSearch`; the navigation syncs the echo field and re-schedules a
timeout only if the sync changed it. Returns the new state and the pushed
search object, if any. -/
def fireTimer (s : ListState) : ListState × Option SearchParams :=
  match s.pending with
  | none => (s, none)
  | some tm =>
      if tm.input = tm.snap.name then (⟨s.params, s.searchInput, none⟩, none)
      else
        let p := handleSearch tm.snap (nameUpdate tm.input)
        if p.name = s.searchInput then (⟨p, s.searchInput, none⟩, some p)
        else (⟨p, p.name, some ⟨tm.fireAt + 500, p.name, p⟩⟩, some p)

/-- Fire the pending timeout if its deadline has passed by time `t`. -/
def deliverDue (s : ListState) (t : Nat) : ListState × List (Nat × SearchParams) :=
  match s.pending with
  | none => (s, [])
  | some tm =>
      if tm.fireAt ≤ t then
        ((fireTimer s).1, ((fireTimer s).2.map fun p => (tm.fireAt, p)).toList)
      else (s, [])

/-- A keystroke at time `t` changing the input to `v`: cleanup cancels the
previous timeout and the re-run effect schedules a new one capturing the
new input and the current render's params; an unchanged value bails out. -/
def onKey (s : ListState) (t : Nat) (v : String) : ListState :=
  if v = s.searchInput then s
  else ⟨s.params, v, some ⟨t + 500, v, s.params⟩⟩

/-- Enter: `handleSearch({name: searchInput})` now; the echo field already
equals the committed name afterwards, so the pending timeout survives. -/
def onEnter (s : ListState) : ListState × SearchParams :=
  (⟨handleSearch s.params (nameUpdate s.searchInput), s.searchInput, s.pending⟩,
   handleSearch s.params (nameUpdate s.searchInput))

/-- Process one event: deliver a due timeout first, then the event. -/
def stepEv (s : ListState) : Ev → ListState × List (Nat × SearchParams)
  | .key t v => (onKey (deliverDue s t).1 t v, (deliverDue s t).2)
  | .enter t =>
      ((onEnter (deliverDue s t).1).1,
       (deliverDue s t).2 ++ [(t, (onEnter (deliverDue s t).1).2)])

/-- Process a time-ordered list of events. -/
def run (s : ListState) : List Ev → ListState × List (Nat × SearchParams)
  | [] => (s, [])
  | e :: es =>
      ((run (stepEv s e).1 es).1,
       (stepEv s e).2 ++ (run (stepEv s e).1 es).2)

/-- Let the pending timeout, if any, fire at its deadline (the trailing
500ms of inactivity). -/
def flush (s : ListState) : ListState × List (Nat × SearchParams) :=
  match s.pending with
  | none => (s, [])
  | some tm =>
      ((fireTimer s).1, ((fireTimer s).2.map fun p => (tm.fireAt, p)).toList)

/-- Run the events, then wait until the last timeout fires. -/
def runFlush (s : ListState) (es : List Ev) : ListState × List (Nat × SearchParams) :=
  ((flush (run s es).1).1, (run s es).2 ++ (flush (run s es).1).2)

/-- Keystroke events from (time, value) pairs. -/
def keyEvs (ks : List (Nat × String)) : List Ev :=
  ks.map fun p => Ev.key p.1 p.2

/-- A keystroke burst after a keystroke at time `pt` with value `pv`:
times strictly increase, consecutive gaps stay under 500ms, and each
keystroke changes the input's value. -/
def burst : Nat → String → List (Nat × String) → Bool
  | _, _, [] => true
  | pt, pv, (t, v) :: rest =>
      decide (pt < t) && decide (t < pt + 500) && (v != pv) && burst t v rest

/-- The value of the last keystroke, with default `d`. -/
def lastVal (d : String) : List (Nat × String) → String
  | [] => d
  | (_, v) :: rest => lastVal v rest

/-- The time of the last keystroke, with default `d`. -/
def lastTime (d : Nat) : List (Nat × String) → Nat
  | [] => d
  | (t, _) :: rest => lastTime t rest

/-- A concrete quiescent starting state for counterexamples. -/
def idleState : ListState := ⟨defaultParams, "", none⟩

/-- `handleSearch` with a name update: page 1, the new name, everything
else preserved. -/
theorem handleSearch_nameUpdate (cur : SearchParams) (v : String) :
    handleSearch cur (nameUpdate v) =
      ⟨1, v, cur.status, cur.species, cur.gender, cur.sortBy, cur.sortOrder⟩ :=
  rfl

/-- During a keystroke burst the pending timeout never fires: starting
right after a keystroke at `pt` (echo field and timeout freshly set, the
committed params captured), the remaining keystrokes only retarget the
timeout, keep the params untouched, and emit nothing. -/
theorem run_keys (ks : List (Nat × String)) :
    ∀ (s : ListState) (pt : Nat),
      s.pending = some ⟨pt + 500, s.searchInput, s.params⟩ →
      burst pt s.searchInput ks = true →
      run s (keyEvs ks) =
        (⟨s.params, lastVal s.searchInput ks,
          some ⟨lastTime pt ks + 500, lastVal s.searchInput ks, s.params⟩⟩, []) := by
  induction ks with
  | nil =>
      intro s pt hp _
      obtain ⟨a, b, c⟩ := s
      simp only at hp
      simp [keyEvs, run, lastVal, lastTime, hp]
  | cons hd rest ih =>
      obtain ⟨t, v⟩ := hd
      intro s pt hp hb
      simp only [burst, Bool.and_eq_true, decide_eq_true_eq, bne_iff_ne] at hb
      obtain ⟨⟨⟨h1, h2⟩, h3⟩, h4⟩ := hb
      have hnotdue : ¬(pt + 500 ≤ t) := by omega
      have hdd : deliverDue s t = (s, []) := by
        simp [deliverDue, hp, hnotdue]
      have hko : onKey s t v = ⟨s.params, v, some ⟨t + 500, v, s.params⟩⟩ := by
        simp [onKey, h3]
      have ihh := ih ⟨s.params, v, some ⟨t + 500, v, s.params⟩⟩ t rfl h4
      simp only [keyEvs, List.map_cons, run, stepEv, hdd, hko, lastVal, lastTime]
      simp only [keyEvs] at ihh
      simp [ihh]

/-- Running a keystroke burst from a quiescent synchronized state: the
params are untouched, nothing is emitted, and one timeout is pending for
500ms after the last keystroke, capturing the last typed value. -/
theorem run_from_idle (s0 : ListState) (t1 : Nat) (v1 : String)
    (rest : List (Nat × String))
    (hpend : s0.pending = none)
    (hne : v1 ≠ s0.searchInput)
    (hb : burst t1 v1 rest = true) :
    run s0 (keyEvs ((t1, v1) :: rest)) =
      (⟨s0.params, lastVal v1 rest,
        some ⟨lastTime t1 rest + 500, lastVal v1 rest, s0.params⟩⟩, []) := by
  have hdd : deliverDue s0 t1 = (s0, []) := by
    simp [deliverDue, hpend]
  have hko : onKey s0 t1 v1 = ⟨s0.params, v1, some ⟨t1 + 500, v1, s0.params⟩⟩ := by
    simp [onKey, hne]
  have ihh := run_keys rest ⟨s0.params, v1, some ⟨t1 + 500, v1, s0.params⟩⟩ t1 rfl hb
  simp only [keyEvs, List.map_cons, run, stepEv, hdd, hko, lastVal, lastTime]
  simp only [keyEvs] at ihh
  simp [ihh]

/-- Splitting a run over an append of event lists. -/
theorem run_append (es1 es2 : List Ev) :
    ∀ s : ListState,
      run s (es1 ++ es2) =
        ((run (run s es1).1 es2).1, (run s es1).2 ++ (run (run s es1).1 es2).2) := by
  induction es1 with
  | nil => intro s; simp [run]
  | cons e es ih =>
      intro s
      simp only [List.cons_append, run, List.append_eq]
      rw [ih (stepEv s e).1]
      simp [List.append_assoc]

/-- C4 counterexample: type "R" at t=0 and press Enter at t=100. The Enter
commit does not cancel the pending debounce timeout — it is still scheduled
after the Enter navigation — and when it fires at t=500 its stale callback
issues a second navigation (with the same search object), refuting
"cancels the pending debounce timer, so no second commit ... is issued
when the timer would have fired". -/
theorem enter_keeps_timer_pending :
    (run idleState [Ev.key 0 "R", Ev.enter 100]).1.pending ≠ none
      ∧ (runFlush idleState [Ev.key 0 "R", Ev.enter 100]).2 =
          [(100, ⟨1, "R", "", "", "", "", "asc"⟩),
           (500, ⟨1, "R", "", "", "", "", "asc"⟩)] := by
  decide

/-- C4 amended: for every keystroke burst into the name input (successive
keystrokes under 500ms apart, each changing the value) from a quiescent
state, at most one commit is issued, it carries the last typed value, and
it occurs exactly 500ms after the final keystroke; pressing Enter issues an
immediate commit of the current input value, and the pending debounce
timeout is NOT cancelled — when it fires, its stale callback issues a
second navigation that carries exactly the same search object as the Enter
commit, so the State Model does not change again and no different value is
ever committed. -/
theorem debounce_commits (s0 : ListState) (t1 : Nat) (v1 : String)
    (rest : List (Nat × String)) (te : Nat)
    (hpend : s0.pending = none)
    (hne : v1 ≠ s0.searchInput)
    (hb : burst t1 v1 rest = true) :
    ((runFlush s0 (keyEvs ((t1, v1) :: rest))).2 =
        if lastVal v1 rest = s0.params.name then []
        else [(lastTime t1 rest + 500,
               handleSearch s0.params (nameUpdate (lastVal v1 rest)))])
      ∧ (lastTime t1 rest < te → te < lastTime t1 rest + 500 →
          lastVal v1 rest ≠ s0.params.name →
          runFlush s0 (keyEvs ((t1, v1) :: rest) ++ [Ev.enter te]) =
            (⟨handleSearch s0.params (nameUpdate (lastVal v1 rest)),
              lastVal v1 rest, none⟩,
             [(te, handleSearch s0.params (nameUpdate (lastVal v1 rest))),
              (lastTime t1 rest + 500,
               handleSearch s0.params (nameUpdate (lastVal v1 rest)))])
            ∧ (run s0 (keyEvs ((t1, v1) :: rest) ++ [Ev.enter te])).1.pending
                ≠ none) := by
  have hrun := run_from_idle s0 t1 v1 rest hpend hne hb
  constructor
  · by_cases hL : lastVal v1 rest = s0.params.name
    · simp [runFlush, hrun, flush, fireTimer, hL]
    · simp [runFlush, hrun, flush, fireTimer, hL, handleSearch,
        buildSearchParams, nameUpdate]
  · intro h1 h2 hL
    have hnotdue : ¬(lastTime t1 rest + 500 ≤ te) := by omega
    have henter : run (⟨s0.params, lastVal v1 rest,
        some ⟨lastTime t1 rest + 500, lastVal v1 rest, s0.params⟩⟩ : ListState)
        [Ev.enter te] =
        (⟨handleSearch s0.params (nameUpdate (lastVal v1 rest)),
          lastVal v1 rest,
          some ⟨lastTime t1 rest + 500, lastVal v1 rest, s0.params⟩⟩,
         [(te, handleSearch s0.params (nameUpdate (lastVal v1 rest)))]) := by
      simp [run, stepEv, deliverDue, hnotdue, onEnter]
    have hstep : run s0 (keyEvs ((t1, v1) :: rest) ++ [Ev.enter te]) =
        (⟨handleSearch s0.params (nameUpdate (lastVal v1 rest)),
          lastVal v1 rest,
          some ⟨lastTime t1 rest + 500, lastVal v1 rest, s0.params⟩⟩,
         [(te, handleSearch s0.params (nameUpdate (lastVal v1 rest)))]) := by
      rw [run_append, hrun]
      simp [henter]
    refine ⟨?_, ?_⟩
    · simp [runFlush, hstep, flush, fireTimer, hL, handleSearch,
        buildSearchParams, nameUpdate]
    · simp [hstep]

/-- C4 witness: the amended theorem applied to typing "R" then "Ri" and
pressing Enter at t=200; the Enter commit at t=200 and the stale timeout
firing at t=600 push the same search object. -/
theorem debounce_commits_witness :
    runFlush idleState (keyEvs [(0, "R"), (100, "Ri")] ++ [Ev.enter 200]) =
      (⟨⟨1, "Ri", "", "", "", "", "asc"⟩, "Ri", none⟩,
       [(200, ⟨1, "Ri", "", "", "", "", "asc"⟩),
        (600, ⟨1, "Ri", "", "", "", "", "asc"⟩)]) :=
  ((debounce_commits idleState 0 "R" [(100, "Ri")] 200 rfl (by decide)
      (by decide)).2 (by decide) (by decide) (by decide)).1

/-- C1 witness: committing a name update from the default State Model
resets the page to 1. -/
theorem handleSearch_resets_page_witness :
    (handleSearch defaultParams (nameUpdate "Rick")).page = 1 :=
  (handleSearch_resets_page_handlePageChange_preserves defaultParams
    (nameUpdate "Rick") 3).1

/-- C6 witness: a 404 response makes `getCharacter` throw an error carrying
the status 404. -/
theorem api_error_404_witness :
    getCharacter 1 (FetchOutcome.response 404 sampleCharacter) =
      Except.error (ApiError.http 404) :=
  (api_error_exactly_on_failure 1 "down" 404 sampleCharacter noFilters "down"
    404 ⟨⟨0, 0, none, none⟩, []⟩).2.2.1.mpr (by decide)

/-- C7 witness: changing sortBy/sortOrder on a concrete State Model leaves
the filter set unchanged. -/
theorem sort_change_witness :
    filtersOf ⟨1, "Rick", "", "", "", "name", "desc"⟩ =
      filtersOf ⟨1, "Rick", "", "", "", "", "asc"⟩ :=
  (sort_change_preserves_filters ⟨1, "Rick", "", "", "", "", "asc"⟩
    "name" "desc").1

/-- C9 witness: with no previous-page URL in the metadata, the Previous
control is disabled. -/
theorem pagination_disabled_witness :
    prevDisabled ⟨826, 42, some "url-next", none⟩ = true :=
  (pagination_disabled_iff ⟨826, 42, some "url-next", none⟩).1.mpr (Or.inl rfl)

/-- C10 witness: the clear-filters navigation carries the full seven-field
default object. -/
theorem navigations_full_witness :
    clearFiltersSearch = ⟨1, "", "", "", "", "", "asc"⟩ :=
  (navigations_carry_full_search defaultParams noUpdates 0).2.2
